import Mathlib

set_option autoImplicit false

/-!
A shallow embedding of `src/common/memory_arena.cpp` (namespace `Common`), the
portable virtual-memory arena, together with a model of the POSIX/Linux
primitives it calls (`shm_open`, `shm_unlink`, `ftruncate64`, `mmap64`,
`munmap`, `msync`, `close`), modelled from their manual pages, and of the one
Windows primitive needed for the naming claims (`CreateFileMappingA`).

Machine pointers are natural numbers below `2^64`; `nullptr` is `0` and
`MAP_FAILED` (`reinterpret_cast<void*>(-1)`) is `2^64 - 1`.  Kernel decisions
that are not functions of the modelled state — which address a non-fixed
`mmap` picks, which descriptor `shm_open` hands out, whether a call is
refused for resource reasons — enter the embedded functions as explicit
oracle arguments; the state effect of each successful call is computed by
the model.  `Panic` and a failed `Assert` are process-fatal and are modelled
as terminal outcomes.
-/

namespace Common

/-- 64-bit pointer values. -/
abbrev Addr := Nat

/-- The size of the pointer value space: `size_t` arithmetic is modulo this. -/
def PTRSPACE : Nat := 2 ^ 64

/-- The value of `reinterpret_cast<void*>(-1)`, i.e. `MAP_FAILED` on Linux. -/
def MAPFAILED : Addr := 2 ^ 64 - 1

def PROT_READ : Nat := 1
def PROT_WRITE : Nat := 2
def PROT_EXEC : Nat := 4

/-- A POSIX shared-memory object: its current size and its byte contents
(total as a function; a fresh object reads as zeroes). -/
structure ShmObj where
  size : Nat
  data : Nat → Nat

/-- What backs a virtual-memory region: private anonymous memory with its
current contents, or an offset range of an open shared-memory descriptor. -/
inductive Backing where
  | anon (data : Nat → Nat)
  | shm (fd : Int)

/-- One mapped region of the process's virtual address space. -/
structure Region where
  base : Addr
  len : Nat
  prot : Nat
  backing : Backing
  off : Nat

/-- The modelled operating-system state of one Linux process: the mapped
regions of its address space, its open shared-memory descriptors, and the
names currently linked in the `shm_open` namespace. -/
structure OS where
  regions : List Region
  fds : List (Int × ShmObj)
  names : List String

/-- Do the address ranges `[a, a+la)` and `[b, b+lb)` intersect? -/
def overlaps (a la b lb : Nat) : Bool :=
  decide (b < a + la) && decide (a < b + lb)

/-- The part of region `r` that survives unmapping (or `MAP_FIXED`
overwriting) of the window `[w, w+l)`: up to two remainder pieces, per the
`munmap`/`mmap` manual pages. -/
def clipRegion (w l : Nat) (r : Region) : List Region :=
  if r.base + r.len ≤ w ∨ w + l ≤ r.base then [r]
  else
    (if r.base < w then
       [{ base := r.base, len := w - r.base, prot := r.prot, backing := r.backing, off := r.off }]
     else []) ++
    (if w + l < r.base + r.len then
       [{ base := w + l, len := r.base + r.len - (w + l), prot := r.prot, backing := r.backing,
          off := r.off + (w + l - r.base) }]
     else [])

/-- Clip every region of a list against the window `[w, w+l)`. -/
def clipAll (w l : Nat) : List Region → List Region
  | [] => []
  | r :: rs => clipRegion w l r ++ clipAll w l rs

/-- Look up an open shared-memory descriptor. -/
def lookupFd (os : OS) (fd : Int) : Option ShmObj :=
  (os.fds.find? fun p => p.1 == fd).map fun p => p.2

/-- Is the backing of a prospective mapping valid (an open descriptor, for a
shared mapping)?  `mmap` fails with `EBADF` otherwise. -/
def backingValid (os : OS) : Backing → Bool
  | .anon _ => true
  | .shm fd => os.fds.any fun p => p.1 == fd

/-- The byte visible at virtual address `a`, when `a` is mapped. -/
def readByte (os : OS) (a : Addr) : Option Nat :=
  match os.regions.find? (fun r => decide (r.base ≤ a) && decide (a < r.base + r.len)) with
  | none => none
  | some r =>
    match r.backing with
    | .anon data => some (data (r.off + (a - r.base)))
    | .shm fd =>
      match lookupFd os fd with
      | none => none
      | some obj => some (obj.data (r.off + (a - r.base)))

/-- Install a mapping of `[off, off+len)` of `backing` at base address
`base`, discarding any overlapped part of the existing mappings. -/
def mapAt (os : OS) (base : Addr) (len prot : Nat) (backing : Backing) (off : Nat) : OS :=
  { os with regions :=
      { base := base, len := len, prot := prot, backing := backing, off := off } ::
        clipAll base len os.regions }

/-- linux `mmap(2)`, modelled from its manual page.  `fixed` is `MAP_FIXED`:
the kernel places the mapping exactly at `addr`, silently discarding any
overlapped part of existing mappings.  Without it the kernel chooses a free
address on its own; `kernelChoice` is that choice, `none` when the call
fails and returns `MAP_FAILED`.  The kernel never places a non-fixed mapping
over an existing one, at the null page, or at a non-address value, so such a
`kernelChoice` is treated as refusal.  The kernel does not compare `off`
against the current size of the backing object: mapping beyond its end
succeeds (accessing those pages later raises `SIGBUS`, which is outside this
model). -/
def linuxMmap (os : OS) (fixed : Bool) (addr : Addr) (len : Nat) (prot : Nat) (backing : Backing)
    (off : Nat) (kernelChoice : Option Addr) : Addr × OS :=
  match kernelChoice with
  | none => (MAPFAILED, os)
  | some chosen =>
    if backingValid os backing = false then (MAPFAILED, os)
    else if fixed then
      if addr = MAPFAILED then (MAPFAILED, os)
      else (addr, mapAt os addr len prot backing off)
    else
      if chosen = MAPFAILED ∨ chosen = 0 ∨
          (os.regions.any fun r => overlaps chosen len r.base r.len) = true then
        (MAPFAILED, os)
      else (chosen, mapAt os chosen len prot backing off)

/-- linux `munmap(2)` applied to the address-space state: every part of an
existing mapping inside `[addr, addr+len)` is removed. -/
def munmapState (os : OS) (addr : Addr) (len : Nat) : OS :=
  { os with regions := clipAll addr len os.regions }

/-- The state after a successful exclusive `shm_open`: the name is linked
and the fresh descriptor refers to a new empty object. -/
def shmOpenedState (os : OS) (name : String) (fd : Int) : OS :=
  { os with names := name :: os.names, fds := (fd, { size := 0, data := fun _ => 0 }) :: os.fds }

/-- POSIX `shm_open` with `O_CREAT | O_EXCL`, modelled from its manual page:
fails if the name is already linked; otherwise the kernel either refuses
(`fdChoice = none`, e.g. resource exhaustion) or hands out an unused
nonnegative descriptor (POSIX guarantees the lowest unused one, which is not
necessarily positive) bound to a fresh object of size 0. -/
def shmOpen (os : OS) (name : String) (fdChoice : Option Int) : Int × OS :=
  if os.names.contains name then (-1, os)
  else
    match fdChoice with
    | none => (-1, os)
    | some fd =>
      if fd < 0 ∨ (os.fds.any fun p => p.1 == fd) = true then (-1, os)
      else (fd, shmOpenedState os name fd)

/-- POSIX `shm_unlink`: removes the name from the namespace; the object
itself stays alive while descriptors to it remain open. -/
def shmUnlink (os : OS) (name : String) : OS :=
  { os with names := os.names.erase name }

/-- POSIX `close(2)` of a shared-memory descriptor. -/
def closeFd (os : OS) (fd : Int) : OS :=
  { os with fds := os.fds.filter fun p => p.1 != fd }

/-- Replace the object bound to descriptor `fd`. -/
def updateFd : List (Int × ShmObj) → Int → ShmObj → List (Int × ShmObj)
  | [], _, _ => []
  | p :: rest, fd, obj => (if p.1 = fd then (fd, obj) else p) :: updateFd rest fd obj

/-- linux `ftruncate64`: resizes the object behind `fd`; `ok = false` models
kernel refusal (e.g. an unrepresentable or over-limit size). -/
def ftruncate64 (os : OS) (fd : Int) (size : Nat) (ok : Bool) : Int × OS :=
  match ok with
  | false => (-1, os)
  | true =>
    match lookupFd os fd with
    | none => (-1, os)
    | some obj => (0, { os with fds := updateFd os.fds fd { size := size, data := obj.data } })

/-- The fields of `Common::MemoryArena` used by the Linux build.  The class
header is not among the visible sources; the descriptor starts out invalid
and the live-view counter at zero, per the spec's data model.  `m_num_views`
is a `std::atomic<size_t>`, so its arithmetic is modulo `2^64`. -/
structure MemoryArena where
  m_shmem_fd : Int
  m_num_views : Nat

/-- A default-constructed `Common::MemoryArena`. -/
def MemoryArena.init : MemoryArena := { m_shmem_fd := -1, m_num_views := 0 }

/-- The `"common_memory_arena_%zu_%u"` name built by `MemoryArena::Create`
from the requested size and the process id. -/
def mappingName (size : Nat) (pid : Nat) : String :=
  "common_memory_arena_" ++ toString size ++ "_" ++ toString pid

/-- The kernel-decision oracle for one `MemoryArena::Create` call. -/
structure CreateOracle where
  fdChoice : Option Int
  ftruncateOk : Bool

/-- `Common::MemoryArena::Create`, Linux branch: `shm_open` the derived name
with `O_CREAT | O_EXCL`, fail if the descriptor is negative, `shm_unlink`
the name immediately, then `ftruncate64` to the requested size, failing if
that fails.  `writable`/`executable` only select the open mode and have no
further modelled effect. -/
def MemoryArena.Create (arena : MemoryArena) (os : OS) (pid : Nat) (size : Nat)
    (writable executable : Bool) (oracle : CreateOracle) : Bool × MemoryArena × OS :=
  let file_mapping_name := mappingName size pid
  let r1 := shmOpen os file_mapping_name oracle.fdChoice
  let arena1 : MemoryArena := { arena with m_shmem_fd := r1.1 }
  if r1.1 < 0 then (false, arena1, r1.2)
  else
    let os2 := shmUnlink r1.2 file_mapping_name
    let r3 := ftruncate64 os2 r1.1 size oracle.ftruncateOk
    if r3.1 < 0 then (false, arena1, r3.2)
    else (true, arena1, r3.2)

/-- `Common::MemoryArena::~MemoryArena`, Linux branch: closes the
shared-memory descriptor, but only when it is strictly positive. -/
def MemoryArena.destructor (arena : MemoryArena) (os : OS) : OS :=
  if arena.m_shmem_fd > 0 then closeFd os arena.m_shmem_fd else os

/-- `Common::MemoryArena::FindBaseAddressForMapping`, Linux branch: probe
with an anonymous `PROT_NONE` mapping, release it again when the returned
value is non-null, and return null on a null probe result.  Note the code
tests the probe result against null although linux `mmap` signals failure
with `MAP_FAILED`. -/
def MemoryArena.FindBaseAddressForMapping (os : OS) (size : Nat)
    (kernelChoice : Option Addr) : Addr × OS :=
  let r := linuxMmap os false 0 size 0 (.anon fun _ => 0) 0 kernelChoice
  let base_address := r.1
  let os2 := if base_address ≠ 0 then munmapState r.2 base_address size else r.2
  if base_address = 0 then (0, os2)
  else (base_address, os2)

/-- The protection bits
`PROT_READ | (writable ? PROT_WRITE : 0) | (executable ? PROT_EXEC : 0)`
computed by `CreateViewPtr` (the bits are disjoint, so `|` is `+`). -/
def protFor (writable executable : Bool) : Nat :=
  PROT_READ + (if writable then PROT_WRITE else 0) + (if executable then PROT_EXEC else 0)

/-- `Common::MemoryArena::CreateViewPtr`, Linux branch: `mmap64` the range
`[offset, offset+size)` of the backing object, with `MAP_FIXED` exactly when
a fixed address was requested; on `MAP_FAILED` return null, otherwise count
one more live view (`m_num_views.fetch_add(1)`).  No comparison of
`offset + size` against the arena size appears anywhere. -/
def MemoryArena.CreateViewPtr (arena : MemoryArena) (os : OS) (offset size : Nat)
    (writable executable : Bool) (fixed_address : Addr) (kernelChoice : Option Addr) :
    Option Addr × MemoryArena × OS :=
  let fixed := decide (fixed_address ≠ 0)
  let prot := protFor writable executable
  let r := linuxMmap os fixed fixed_address size prot (.shm arena.m_shmem_fd) offset kernelChoice
  if r.1 = MAPFAILED then (none, arena, r.2)
  else (some r.1, { arena with m_num_views := (arena.m_num_views + 1) % PTRSPACE }, r.2)

/-- `Common::MemoryArena::View`'s fields.  `m_parent` is a pointer to the
owning arena; the model keeps whether it is null, and the arena itself is
passed to the operations that dereference it. -/
structure View where
  m_parent : Bool
  m_base_pointer : Addr
  m_arena_offset : Nat
  m_mapping_size : Nat
  m_writable : Bool

/-- `Common::MemoryArena::CreateView`: wrap a successful `CreateViewPtr`
result in a `View`, or report failure. -/
def MemoryArena.CreateView (arena : MemoryArena) (os : OS) (offset size : Nat)
    (writable executable : Bool) (fixed_address : Addr) (kernelChoice : Option Addr) :
    Option View × MemoryArena × OS :=
  match arena.CreateViewPtr os offset size writable executable fixed_address kernelChoice with
  | (none, a, o) => (none, a, o)
  | (some bp, a, o) =>
    (some { m_parent := true, m_base_pointer := bp, m_arena_offset := offset,
            m_mapping_size := size, m_writable := writable }, a, o)

/-- `Common::MemoryArena::FlushViewPtr`, Linux branch:
`msync(address, size, 0) >= 0`.  The model does not track dirty pages;
`msyncOk` is the outcome of the `msync` call. -/
def MemoryArena.FlushViewPtr (msyncOk : Bool) : Bool := msyncOk

/-- The outcome of `Common::MemoryArena::ReleaseViewPtr`: either the
`Assert(prev_count > 0)` aborted the process, or the function returned a
boolean with the resulting arena and OS states. -/
inductive RVP where
  | assertFailed
  | ret (result : Bool) (arena : MemoryArena) (os : OS)

/-- `Common::MemoryArena::ReleaseViewPtr`, Linux branch: `munmap` the range;
on failure log and return false.  On success `m_num_views.fetch_sub(1)`
(modulo `2^64`, as for any `std::atomic<size_t>`) and `Assert` that the
fetched previous count was positive. -/
def MemoryArena.ReleaseViewPtr (arena : MemoryArena) (os : OS) (address : Addr) (size : Nat)
    (munmapOk : Bool) : RVP :=
  if munmapOk = false then .ret false arena os
  else
    let os1 := munmapState os address size
    let prev := arena.m_num_views
    let arena1 : MemoryArena := { arena with m_num_views := (prev + (PTRSPACE - 1)) % PTRSPACE }
    if prev = 0 then .assertFailed
    else .ret true arena1 os1

/-- `Common::MemoryArena::View`'s move constructor.  Its initializer list
copies `m_parent`, `m_base_pointer`, `m_arena_offset` and `m_mapping_size`
and nulls them in the source, but `m_writable` is absent from it: the new
holder's flag is left default-initialized, i.e. it holds an indeterminate
value, modelled by the extra argument `junk`.  Returns the new holder and
the moved-from source. -/
def View.moveConstruct (view : View) (junk : Bool) : View × View :=
  ({ m_parent := view.m_parent, m_base_pointer := view.m_base_pointer,
     m_arena_offset := view.m_arena_offset, m_mapping_size := view.m_mapping_size,
     m_writable := junk },
   { view with m_parent := false, m_base_pointer := 0, m_arena_offset := 0, m_mapping_size := 0 })

/-- The outcome of `Common::MemoryArena::View::~View`: a `Panic` (with the
panicked message), a failed `Assert` inside `ReleaseViewPtr`, or a normal
return with the resulting arena and OS states. -/
inductive DtorResult where
  | panicked (msg : String)
  | assertFailed
  | ok (arena : MemoryArena) (os : OS)

/-- Is the destructor outcome a normal return? -/
def DtorResult.isOk : DtorResult → Bool
  | .ok _ _ => true
  | _ => false

/-- `Common::MemoryArena::View::~View`: when `m_parent` is non-null, a
writable view is flushed first, panicking if the flush fails; then the
mapping is released, panicking if that fails.  `msyncOk` and `munmapOk` are
the outcomes of the two OS calls the release may perform. -/
def View.destructor (v : View) (arena : MemoryArena) (os : OS) (msyncOk munmapOk : Bool) :
    DtorResult :=
  if v.m_parent then
    if v.m_writable && !(MemoryArena.FlushViewPtr msyncOk) then
      .panicked "Failed to flush previously-created view"
    else
      match arena.ReleaseViewPtr os v.m_base_pointer v.m_mapping_size munmapOk with
      | .assertFailed => .assertFailed
      | .ret true a o => .ok a o
      | .ret false _ _ => .panicked "Failed to unmap previously-created view"
  else .ok arena os

/-- The Windows kernel object namespace relevant here: the named
file-mapping (section) objects, `name ↦ handle`. -/
structure WinOS where
  mappings : List (String × Nat)

/-- The fields of `Common::MemoryArena` used by the Windows build; a null
`HANDLE` is 0. -/
structure WinArena where
  m_file_handle : Nat

/-- A default-constructed Windows-side `Common::MemoryArena`. -/
def WinArena.init : WinArena := { m_file_handle := 0 }

/-- `CreateFileMappingA` with `INVALID_HANDLE_VALUE`, modelled from its
documentation: creates a pagefile-backed section registered under `name`,
or, when the name already designates an existing object, opens that object
(success with `GetLastError() = ERROR_ALREADY_EXISTS`).  `handleChoice` is
the fresh non-null handle the kernel hands out, `none` when it refuses and
returns `NULL`.  Nothing removes the name while the object stays alive. -/
def createFileMappingA (os : WinOS) (size : Nat) (name : String) (handleChoice : Option Nat) :
    Nat × WinOS :=
  match os.mappings.find? (fun p => p.1 == name) with
  | some p => (p.2, os)
  | none =>
    match handleChoice with
    | none => (0, os)
    | some h =>
      if h = 0 then (0, os)
      else (h, { mappings := (name, h) :: os.mappings })

/-- `Common::MemoryArena::Create`, Windows branch: `CreateFileMappingA` with
the derived name, failing on a null handle.  No counterpart of `shm_unlink`
appears: the name stays bound to the object. -/
def WinArena.Create (arena : WinArena) (os : WinOS) (pid : Nat) (size : Nat)
    (writable executable : Bool) (handleChoice : Option Nat) : Bool × WinArena × WinOS :=
  let file_mapping_name := mappingName size pid
  let r := createFileMappingA os size file_mapping_name handleChoice
  let arena1 : WinArena := { arena with m_file_handle := r.1 }
  if r.1 = 0 then (false, arena1, r.2)
  else (true, arena1, r.2)

/-- One `create_view` / view-release event, with the kernel decisions its OS
calls consumed. -/
inductive ArenaOp where
  | create (offset size : Nat) (writable executable : Bool) (fixed_address : Addr)
      (kernelChoice : Option Addr)
  | release (address : Addr) (size : Nat) (munmapOk : Bool)

/-- A run state for a sequence of view events: the arena and OS states plus
the number of *successful* creations and releases so far. -/
structure SimState where
  arena : MemoryArena
  os : OS
  created : Nat
  released : Nat

/-- Execute one view event.  `none` is the process aborting on the failed
`Assert` inside `ReleaseViewPtr`. -/
def stepOp (s : SimState) : ArenaOp → Option SimState
  | .create offset size w e fa kc =>
    match s.arena.CreateView s.os offset size w e fa kc with
    | (some _, a, o) => some { arena := a, os := o, created := s.created + 1, released := s.released }
    | (none, a, o) => some { arena := a, os := o, created := s.created, released := s.released }
  | .release addr size ok =>
    match s.arena.ReleaseViewPtr s.os addr size ok with
    | .assertFailed => none
    | .ret true a o => some { arena := a, os := o, created := s.created, released := s.released + 1 }
    | .ret false a o => some { arena := a, os := o, created := s.created, released := s.released }

/-- Execute a sequence of view events. -/
def runOps (s : SimState) : List ArenaOp → Option SimState
  | [] => some s
  | op :: rest =>
    match stepOp s op with
    | none => none
    | some s1 => runOps s1 rest

/-- A one-page shared-memory object filled with zero bytes. -/
def pageObj : ShmObj := { size := 4096, data := fun _ => 0 }

/-- An OS state holding one open shared-memory descriptor (3) of one page
and nothing else: what `MemoryArena::Create(4096, …)` leaves behind. -/
def osArenaOnly : OS := { regions := [], fds := [(3, pageObj)], names := [] }

/-- The arena over descriptor 3 with no live views. -/
def arena3 : MemoryArena := { m_shmem_fd := 3, m_num_views := 0 }

/-- The arena over descriptor 3 with one live view. -/
def arena3one : MemoryArena := { m_shmem_fd := 3, m_num_views := 1 }

/-- An unrelated pre-existing private mapping at address 65536 whose bytes
all read 7. -/
def strangerRegion : Region :=
  { base := 65536, len := 4096, prot := 3, backing := .anon fun _ => 7, off := 0 }

/-- The OS state of `osArenaOnly` with `strangerRegion` also mapped. -/
def osWithStranger : OS := { regions := [strangerRegion], fds := [(3, pageObj)], names := [] }

/-- A writable view of the whole arena mapped at 65536. -/
def viewAt65536 : View :=
  { m_parent := true, m_base_pointer := 65536, m_arena_offset := 0, m_mapping_size := 4096,
    m_writable := true }

/-- The size of the backing shared-memory object visible through the arena's
descriptor — the `arena.size` of the spec (0 when the descriptor is dead). -/
def MemoryArena.backingSize (arena : MemoryArena) (os : OS) : Nat :=
  match lookupFd os arena.m_shmem_fd with
  | none => 0
  | some obj => obj.size

/-- An OS state with nothing mapped, nothing open and nothing named. -/
def emptyOS : OS := { regions := [], fds := [], names := [] }

/-- The event trace of the accounting witness: one successful view creation
followed by one successful release. -/
def opsW : List ArenaOp :=
  [.create 0 4096 true false 0 (some 1048576), .release 1048576 4096 true]

/-- The final state of the accounting witness run. -/
def simW : SimState := { arena := arena3, os := osArenaOnly, created := 1, released := 1 }

/-! ### Helper lemmas shared by the claim proofs -/

/-- `size_t` decrement of a positive representable counter. -/
theorem counter_decrement (c : Nat) (hpos : 0 < c) (hlt : c < PTRSPACE) :
    (c + (PTRSPACE - 1)) % PTRSPACE = c - 1 := by
  have hP : 0 < PTRSPACE := by norm_num [PTRSPACE]
  have h1 : c + (PTRSPACE - 1) = (c - 1) + PTRSPACE := by omega
  rw [h1, Nat.add_mod_right]
  exact Nat.mod_eq_of_lt (by omega)

/-- `mmap` either fails outright, leaving the state unchanged, or returns a
base distinct from `MAP_FAILED`. -/
theorem linuxMmap_spec (os : OS) (fixed : Bool) (addr : Addr) (len prot : Nat)
    (backing : Backing) (off : Nat) (kc : Option Addr) :
    (linuxMmap os fixed addr len prot backing off kc = (MAPFAILED, os)) ∨
    ((linuxMmap os fixed addr len prot backing off kc).1 ≠ MAPFAILED) := by
  unfold linuxMmap
  cases kc with
  | none => left; rfl
  | some chosen =>
    dsimp only
    split
    · left; rfl
    · split
      · split
        · left; rfl
        · next h => right; exact h
      · split
        · left; rfl
        · next h => right; exact fun hc => h (Or.inl hc)

/-- A failed `mmap` leaves the address space unchanged. -/
theorem linuxMmap_failed_state (os : OS) (fixed : Bool) (addr : Addr) (len prot : Nat)
    (backing : Backing) (off : Nat) (kc : Option Addr)
    (h : (linuxMmap os fixed addr len prot backing off kc).1 = MAPFAILED) :
    (linuxMmap os fixed addr len prot backing off kc).2 = os := by
  rcases linuxMmap_spec os fixed addr len prot backing off kc with heq | hne
  · rw [heq]
  · exact absurd h hne

/-- What `CreateViewPtr` can do: fail with everything unchanged, or succeed
returning the mapped base with the view counter bumped modulo `2^64`. -/
theorem createViewPtr_effect (arena : MemoryArena) (os : OS) (offset size : Nat)
    (w e : Bool) (fa : Addr) (kc : Option Addr) :
    (arena.CreateViewPtr os offset size w e fa kc = (none, arena, os)) ∨
    ((arena.CreateViewPtr os offset size w e fa kc).1.isSome = true ∧
     (arena.CreateViewPtr os offset size w e fa kc).2.1 =
       { arena with m_num_views := (arena.m_num_views + 1) % PTRSPACE }) := by
  unfold MemoryArena.CreateViewPtr
  dsimp only
  split
  next h =>
    left
    rw [linuxMmap_failed_state _ _ _ _ _ _ _ _ h]
  next h =>
    right
    exact ⟨rfl, rfl⟩

/-- What `CreateView` can do, derived from `createViewPtr_effect`. -/
theorem createView_effect (arena : MemoryArena) (os : OS) (offset size : Nat)
    (w e : Bool) (fa : Addr) (kc : Option Addr) :
    (arena.CreateView os offset size w e fa kc = (none, arena, os)) ∨
    ((arena.CreateView os offset size w e fa kc).1.isSome = true ∧
     (arena.CreateView os offset size w e fa kc).2.1 =
       { arena with m_num_views := (arena.m_num_views + 1) % PTRSPACE }) := by
  rcases createViewPtr_effect arena os offset size w e fa kc with h | ⟨h1, h2⟩
  · left
    unfold MemoryArena.CreateView
    rw [h]
  · unfold MemoryArena.CreateView at *
    rcases hp : arena.CreateViewPtr os offset size w e fa kc with ⟨op, a, o⟩
    rw [hp] at h1 h2
    cases op with
    | none => simp at h1
    | some bp =>
      right
      simp only
      exact ⟨rfl, h2⟩

/-- What `ReleaseViewPtr` can do: fail with everything unchanged, abort on
the assertion (only when the counter is zero), or succeed decrementing the
counter modulo `2^64`. -/
theorem releaseViewPtr_effect (arena : MemoryArena) (os : OS) (addr : Addr) (size : Nat)
    (ok : Bool) :
    (arena.ReleaseViewPtr os addr size ok = RVP.ret false arena os) ∨
    (arena.ReleaseViewPtr os addr size ok = RVP.assertFailed ∧ arena.m_num_views = 0) ∨
    (arena.ReleaseViewPtr os addr size ok =
       RVP.ret true { arena with m_num_views := (arena.m_num_views + (PTRSPACE - 1)) % PTRSPACE }
         (munmapState os addr size) ∧ 0 < arena.m_num_views) := by
  unfold MemoryArena.ReleaseViewPtr
  cases ok with
  | false => left; simp
  | true =>
    rcases Nat.eq_zero_or_pos arena.m_num_views with h0 | h0
    · right; left; simp [h0]
    · right; right
      have hne : ¬ arena.m_num_views = 0 := by omega
      simp [hne, h0]

/-- A key absent from a descriptor table is untouched by `updateFd`. -/
theorem updateFd_skips (fd : Int) (obj : ShmObj) : ∀ l : List (Int × ShmObj),
    (l.any fun p => p.1 == fd) = false → updateFd l fd obj = l
  | [], _ => rfl
  | p :: rest, h => by
    rw [List.any_cons, Bool.or_eq_false_iff] at h
    have hne : ¬ p.1 = fd := by simpa using h.1
    rw [updateFd, if_neg hne, updateFd_skips fd obj rest h.2]

/-- Filtering out an absent key keeps a descriptor table intact. -/
theorem filter_skips (fd : Int) : ∀ l : List (Int × ShmObj),
    (l.any fun p => p.1 == fd) = false → (l.filter fun p => p.1 != fd) = l
  | [], _ => rfl
  | p :: rest, h => by
    rw [List.any_cons, Bool.or_eq_false_iff] at h
    have hk : (p.1 != fd) = true := by simp [bne, h.1]
    simp only [List.filter_cons, hk, if_pos trivial]
    rw [filter_skips fd rest h.2]

/-- What `shm_open(O_CREAT | O_EXCL)` can do: fail (negative descriptor,
state unchanged) or hand out the oracle's unused nonnegative descriptor,
linking the name. -/
theorem shmOpen_cases (os : OS) (name : String) (fdc : Option Int) :
    ((shmOpen os name fdc).1 < 0 ∧ (shmOpen os name fdc).2 = os) ∨
    (∃ fd : Int, fdc = some fd ∧ 0 ≤ fd ∧ (shmOpen os name fdc).1 = fd ∧
      (os.fds.any fun p => p.1 == fd) = false ∧
      os.names.contains name = false ∧
      (shmOpen os name fdc).2 = shmOpenedState os name fd) := by
  unfold shmOpen
  split
  · left
    exact ⟨by norm_num, rfl⟩
  next hname =>
    cases fdc with
    | none => left; exact ⟨by norm_num, rfl⟩
    | some fd =>
      dsimp only
      split
      next hbad => left; exact ⟨by norm_num, rfl⟩
      next hgood =>
        right
        rw [not_or] at hgood
        refine ⟨fd, rfl, by omega, rfl, ?_, ?_, rfl⟩
        · exact Bool.eq_false_iff.mpr (fun hc => hgood.2 hc)
        · exact Bool.eq_false_iff.mpr (fun hc => hname (by simpa using hc))

/-- A `Create` whose `shm_open` was granted the fresh descriptor `fd`
returns the `ftruncate` outcome, stores `fd`, and leaves the namespace as
it found it with the name unlinked again: only the descriptor table gains
the new object (sized by `ftruncate` when that succeeded). -/
theorem create_granted (arena : MemoryArena) (os : OS) (pid size : Nat) (w e : Bool)
    (fd : Int) (ftok : Bool)
    (hret : (shmOpen os (mappingName size pid) (some fd)).1 = fd)
    (hos : (shmOpen os (mappingName size pid) (some fd)).2
      = shmOpenedState os (mappingName size pid) fd)
    (hfd0 : 0 ≤ fd) (hunused : (os.fds.any fun p => p.1 == fd) = false) :
    arena.Create os pid size w e { fdChoice := some fd, ftruncateOk := ftok }
      = (ftok, { arena with m_shmem_fd := fd },
         { regions := os.regions,
           fds := (fd, { size := if ftok then size else 0, data := fun _ => 0 }) :: os.fds,
           names := os.names }) := by
  have hnneg : ¬ (shmOpen os (mappingName size pid) (some fd)).1 < 0 := by omega
  unfold MemoryArena.Create
  dsimp only
  rw [if_neg hnneg, hret, hos]
  simp only [shmUnlink, shmOpenedState, List.erase_cons_head]
  cases ftok with
  | false =>
    dsimp only [ftruncate64]
    norm_num
  | true =>
    dsimp only [ftruncate64]
    rw [show lookupFd { regions := os.regions, fds := (fd, ({ size := 0, data := fun _ => 0 } : ShmObj)) :: os.fds, names := os.names } fd = some ({ size := 0, data := fun _ => 0 } : ShmObj) from by simp [lookupFd]]
    dsimp only
    rw [show updateFd ((fd, ({ size := 0, data := fun _ => 0 } : ShmObj)) :: os.fds) fd { size := size, data := fun _ => 0 } = (fd, ({ size := size, data := fun _ => 0 } : ShmObj)) :: os.fds from by rw [updateFd, if_pos rfl, updateFd_skips fd _ os.fds hunused]]
    norm_num

/-- One step of the view-event machine preserves the counter accounting
while the creation count stays representable. -/
theorem stepOp_invariant (s s1 : SimState) (op : ArenaOp)
    (h : stepOp s op = some s1)
    (hinv : s.arena.m_num_views + s.released = s.created)
    (hbound : s.created + 1 < PTRSPACE) :
    s1.arena.m_num_views + s1.released = s1.created ∧ s1.created ≤ s.created + 1 := by
  cases op with
  | create offset size w e fa kc =>
    rcases createView_effect s.arena s.os offset size w e fa kc with heq | ⟨hsome, harena⟩
    · simp only [stepOp] at h
      rw [heq] at h
      cases h
      dsimp only
      exact ⟨hinv, by omega⟩
    · rcases hcv : s.arena.CreateView s.os offset size w e fa kc with ⟨ov, a, o⟩
      rw [hcv] at hsome harena
      simp only [stepOp] at h
      rw [hcv] at h
      cases ov with
      | none => simp at hsome
      | some v =>
        cases h
        dsimp only at harena ⊢
        rw [harena]
        dsimp only
        have hc1 : s.arena.m_num_views + 1 < PTRSPACE := by omega
        rw [Nat.mod_eq_of_lt hc1]
        constructor <;> omega
  | release addr size ok =>
    rcases releaseViewPtr_effect s.arena s.os addr size ok with h1 | ⟨h1, h0⟩ | ⟨h1, hpos⟩
    · simp only [stepOp] at h
      rw [h1] at h
      cases h
      dsimp only
      exact ⟨hinv, by omega⟩
    · simp only [stepOp] at h
      rw [h1] at h
      cases h
    · simp only [stepOp] at h
      rw [h1] at h
      cases h
      dsimp only
      have hlt : s.arena.m_num_views < PTRSPACE := by omega
      rw [counter_decrement s.arena.m_num_views hpos hlt]
      constructor <;> omega

/-- Running a view-event trace preserves the counter accounting, and the
number of successful creations is bounded by the trace length. -/
theorem runOps_invariant (ops : List ArenaOp) : ∀ s t : SimState,
    runOps s ops = some t →
    s.arena.m_num_views + s.released = s.created →
    s.created + ops.length < PTRSPACE →
    t.arena.m_num_views + t.released = t.created ∧ t.created ≤ s.created + ops.length := by
  induction ops with
  | nil =>
    intro s t h hinv _
    rw [runOps] at h
    cases h
    exact ⟨hinv, Nat.le_refl _⟩
  | cons op rest ih =>
    intro s t h hinv hlen
    rw [runOps] at h
    cases hstep : stepOp s op with
    | none => rw [hstep] at h; cases h
    | some s1 =>
      rw [hstep] at h
      have hlen1 : s.created + 1 < PTRSPACE := by
        simp only [List.length_cons] at hlen
        omega
      have hs1 := stepOp_invariant s s1 op hstep hinv hlen1
      have hrest := ih s1 t h hs1.1 (by
        simp only [List.length_cons] at hlen
        omega)
      simp only [List.length_cons]
      obtain ⟨h1, h2⟩ := hrest
      exact ⟨h1, by omega⟩

/-- `CreateView` produces a view exactly when `CreateViewPtr` produces a
pointer. -/
theorem createView_isSome (arena : MemoryArena) (os : OS) (offset size : Nat)
    (w e : Bool) (fa : Addr) (kc : Option Addr) :
    (arena.CreateView os offset size w e fa kc).1.isSome
      = (arena.CreateViewPtr os offset size w e fa kc).1.isSome := by
  rcases h : arena.CreateViewPtr os offset size w e fa kc with ⟨op, a, o⟩
  unfold MemoryArena.CreateView
  rw [h]
  cases op <;> rfl

/-- `CreateViewPtr` succeeds exactly when its `mmap` call does. -/
theorem createViewPtr_isSome_iff (arena : MemoryArena) (os : OS) (offset size : Nat)
    (w e : Bool) (fa : Addr) (kc : Option Addr) :
    (arena.CreateViewPtr os offset size w e fa kc).1.isSome = true ↔
      (linuxMmap os (decide (fa ≠ 0)) fa size (protFor w e)
        (Backing.shm arena.m_shmem_fd) offset kc).1 ≠ MAPFAILED := by
  unfold MemoryArena.CreateViewPtr
  dsimp only
  split
  next h =>
    rw [h]
    simp
  next h =>
    simp only [Option.isSome_some]
    simpa using h

/-! ### The claims -/

/-- C1, counterexample: `create_view` does not fail when `offset + size`
exceeds the arena size.  Over a 4096-byte backing object, the request
`offset = 4096, size = 4096` (so `offset + size = 8192 > 4096`) succeeds
whenever the kernel grants an address, because `CreateViewPtr` never
compares `offset + size` with the arena size and linux `mmap` maps beyond
the end of the object without complaint. -/
theorem createView_out_of_range_succeeds :
    arena3.backingSize osArenaOnly = 4096 ∧
    ¬ (4096 + 4096 ≤ 4096) ∧
    (arena3.CreateView osArenaOnly 4096 4096 true false 0 (some 1048576)).1.isSome = true ∧
    (arena3.CreateView osArenaOnly 4096 4096 true false 0 (some 1048576)).2.1.m_num_views = 1 := by
  refine ⟨rfl, by decide, rfl, rfl⟩

/-- C2, counterexample: on the Linux implementation a fixed-address view
request at an address occupied by an unrelated mapping does not fail:
`mmap` is called with `MAP_FIXED`, which succeeds and silently replaces the
unrelated mapping, whose visible contents at that address change (here from
byte 7 to byte 0). -/
theorem fixed_address_collision_clobbers :
    readByte osWithStranger 65536 = some 7 ∧
    (arena3.CreateViewPtr osWithStranger 0 4096 true false 65536 (some 999)).1 = some 65536 ∧
    readByte (arena3.CreateViewPtr osWithStranger 0 4096 true false 65536 (some 999)).2.2 65536
      = some 0 := by
  refine ⟨rfl, rfl, rfl⟩

/-- C3: when the linux `mmap` probe fails it returns `MAP_FAILED`
(`(void*)-1`), not null; `FindBaseAddressForMapping` only checks the result
against null, so it passes the sentinel to `munmap` and then returns it to
the caller as if it were a valid free base address, instead of returning
null as the claim states. -/
theorem findBase_returns_sentinel :
    (MemoryArena.FindBaseAddressForMapping osArenaOnly 4096 none).1 = MAPFAILED ∧
    MAPFAILED ≠ 0 := by
  refine ⟨rfl, by decide⟩

/-- C4: the `View` move constructor leaves `m_writable` out of its
initializer list, so the new holder's flag holds an indeterminate
default-initialized value (`junk`, here reading `false`) instead of the
source's `true`.  Releasing the original writable view when the flush would
fail panics on the flush; releasing the new holder under the same OS
behaviour skips the flush entirely and unmaps without it — not the
behaviour the original's release would have had.  The moved-from source
does become an inert handle whose release is a no-op. -/
theorem move_ctor_drops_writable :
    viewAt65536.m_writable = true ∧
    (viewAt65536.moveConstruct false).1.m_writable = false ∧
    viewAt65536.destructor arena3one osArenaOnly false true
      = DtorResult.panicked "Failed to flush previously-created view" ∧
    ((viewAt65536.moveConstruct false).1.destructor arena3one osArenaOnly false true).isOk
      = true ∧
    (viewAt65536.moveConstruct false).2.m_parent = false ∧
    (viewAt65536.moveConstruct false).2.destructor arena3one osArenaOnly false true
      = DtorResult.ok arena3one osArenaOnly := by
  refine ⟨rfl, rfl, rfl, rfl, rfl, rfl⟩

/-- C7, counterexample: on the Windows implementation a successful `Create`
leaves the backing section object registered under its derived name: no
counterpart of `shm_unlink` runs, so a cross-process-visible named resource
does remain after `Create` returns (until the handle is closed). -/
theorem create_windows_name_remains :
    (WinArena.Create WinArena.init { mappings := [] } 1 4096 true false (some 7)).1 = true ∧
    ((WinArena.Create WinArena.init { mappings := [] } 1 4096 true false (some 7)).2.2.mappings.any
      fun p => p.1 == mappingName 4096 1) = true := by
  refine ⟨rfl, rfl⟩

/-- C9, counterexample: POSIX only guarantees `shm_open` returns the lowest
unused nonnegative descriptor; if descriptor 0 is free (stdin closed) the
arena is created over fd 0, and the destructor's `if (m_shmem_fd > 0)`
guard then skips the `close`, leaking the descriptor after
create-then-destroy. -/
theorem create_destroy_leaks_fd_zero :
    (MemoryArena.Create MemoryArena.init emptyOS 1 4096 true false
        { fdChoice := some 0, ftruncateOk := true }).1 = true ∧
    ((MemoryArena.destructor
        (MemoryArena.Create MemoryArena.init emptyOS 1 4096 true false
          { fdChoice := some 0, ftruncateOk := true }).2.1
        (MemoryArena.Create MemoryArena.init emptyOS 1 4096 true false
          { fdChoice := some 0, ftruncateOk := true }).2.2).fds.any
      fun p => p.1 == (0 : Int)) = true := by
  refine ⟨rfl, rfl⟩

/-- C1, amended: `create_view` performs no bound check of `offset + size`
against the arena size — it succeeds exactly when the underlying OS mapping
call succeeds, and a failed call does leave no observable side effect: the
arena (live-view counter included) and the address space are returned
unchanged. -/
theorem createView_succeeds_iff_mmap (arena : MemoryArena) (os : OS) (offset size : Nat)
    (w e : Bool) (fa : Addr) (kc : Option Addr) :
    ((arena.CreateView os offset size w e fa kc).1.isSome = true ↔
      (linuxMmap os (decide (fa ≠ 0)) fa size (protFor w e)
        (Backing.shm arena.m_shmem_fd) offset kc).1 ≠ MAPFAILED) ∧
    ((arena.CreateView os offset size w e fa kc).1.isSome = false →
      arena.CreateView os offset size w e fa kc = (none, arena, os)) := by
  constructor
  · rw [createView_isSome]
    exact createViewPtr_isSome_iff arena os offset size w e fa kc
  · intro h
    rcases createView_effect arena os offset size w e fa kc with heq | ⟨h1, _⟩
    · exact heq
    · rw [h1] at h
      cases h

/-- C1, amended, witness: a refused in-range mapping call makes
`create_view` fail with the arena and OS unchanged. -/
theorem createView_succeeds_iff_mmap_witness :
    (arena3.CreateView osArenaOnly 0 4096 true false 0 none).1.isSome = false ∧
    arena3.CreateView osArenaOnly 0 4096 true false 0 none = (none, arena3, osArenaOnly) :=
  ⟨rfl, (createView_succeeds_iff_mmap arena3 osArenaOnly 0 4096 true false 0 none).2 rfl⟩

/-- C2, amended: on the Linux implementation a fixed-address view request
never fails for being at an occupied address: whenever the kernel accepts
the call, it succeeds at exactly the requested address and installs the
arena mapping there, discarding any overlapped part of pre-existing
mappings (`MAP_FIXED`); on Windows only, such a collision fails cleanly.
The caller must guarantee the fixed address range is free. -/
theorem fixed_view_request_always_replaces (arena : MemoryArena) (os : OS) (offset size : Nat)
    (w e : Bool) (fa : Addr) (c : Addr)
    (hfa0 : fa ≠ 0) (hfaM : fa ≠ MAPFAILED)
    (hfd : backingValid os (Backing.shm arena.m_shmem_fd) = true) :
    (arena.CreateViewPtr os offset size w e fa (some c)).1 = some fa ∧
    (arena.CreateViewPtr os offset size w e fa (some c)).2.1.m_num_views
      = (arena.m_num_views + 1) % PTRSPACE ∧
    (arena.CreateViewPtr os offset size w e fa (some c)).2.2
      = mapAt os fa size (protFor w e) (Backing.shm arena.m_shmem_fd) offset := by
  have hdec : decide (fa ≠ 0) = true := by simp [hfa0]
  have hmm : linuxMmap os (decide (fa ≠ 0)) fa size (protFor w e)
      (Backing.shm arena.m_shmem_fd) offset (some c)
      = (fa, mapAt os fa size (protFor w e) (Backing.shm arena.m_shmem_fd) offset) := by
    unfold linuxMmap
    rw [hdec]
    simp [hfd, hfaM]
  unfold MemoryArena.CreateViewPtr
  dsimp only
  rw [hmm]
  simp [hfaM]

/-- C2, amended, witness: the concrete collision of the counterexample is
an instance of the replacing behaviour. -/
theorem fixed_view_request_always_replaces_witness :
    (65536 : Addr) ≠ 0 ∧ (65536 : Addr) ≠ MAPFAILED ∧
    backingValid osWithStranger (Backing.shm arena3.m_shmem_fd) = true ∧
    (arena3.CreateViewPtr osWithStranger 0 4096 true false 65536 (some 999)).1 = some 65536 :=
  ⟨by decide, by decide, rfl,
    (fixed_view_request_always_replaces arena3 osWithStranger 0 4096 true false 65536 999
      (by decide) (by decide) rfl).1⟩

/-- C5: releasing a `View` that still owns a live mapping flushes first when
the view is writable — a failed flush panics before any unmap is attempted —
then unmaps, a failed unmap also panicking; when both OS calls succeed the
release returns normally with the mapping removed and the live-view counter
decremented.  Both failure modes terminate the process instead of surfacing
a recoverable error. -/
theorem view_release_flush_unmap_fatal (v : View) (arena : MemoryArena) (os : OS)
    (msyncOk munmapOk : Bool) (howns : v.m_parent = true) :
    (v.m_writable = true → msyncOk = false →
      v.destructor arena os msyncOk munmapOk
        = DtorResult.panicked "Failed to flush previously-created view") ∧
    ((v.m_writable = false ∨ msyncOk = true) → munmapOk = false →
      v.destructor arena os msyncOk munmapOk
        = DtorResult.panicked "Failed to unmap previously-created view") ∧
    ((v.m_writable = false ∨ msyncOk = true) → munmapOk = true → 0 < arena.m_num_views →
      arena.m_num_views < PTRSPACE →
      v.destructor arena os msyncOk munmapOk
        = DtorResult.ok { arena with m_num_views := arena.m_num_views - 1 }
            (munmapState os v.m_base_pointer v.m_mapping_size)) := by
  refine ⟨?_, ?_, ?_⟩
  · intro hw hm
    subst hm
    simp [View.destructor, howns, hw, MemoryArena.FlushViewPtr]
  · intro hwm hm
    subst hm
    have hflush : (v.m_writable && !(MemoryArena.FlushViewPtr msyncOk)) = false := by
      rcases hwm with h | h <;> simp [MemoryArena.FlushViewPtr, h]
    simp [View.destructor, howns, hflush, MemoryArena.ReleaseViewPtr]
  · intro hwm hm hpos hlt
    subst hm
    have hflush : (v.m_writable && !(MemoryArena.FlushViewPtr msyncOk)) = false := by
      rcases hwm with h | h <;> simp [MemoryArena.FlushViewPtr, h]
    have hne : ¬ arena.m_num_views = 0 := by omega
    simp [View.destructor, howns, hflush, MemoryArena.ReleaseViewPtr, hne,
      counter_decrement arena.m_num_views hpos hlt]

/-- C5, witness: releasing a live writable view whose flush fails panics. -/
theorem view_release_flush_unmap_fatal_witness :
    viewAt65536.m_parent = true ∧ viewAt65536.m_writable = true ∧
    viewAt65536.destructor arena3one osArenaOnly false true
      = DtorResult.panicked "Failed to flush previously-created view" :=
  ⟨rfl, rfl,
    (view_release_flush_unmap_fatal viewAt65536 arena3one osArenaOnly false true rfl).1 rfl rfl⟩

/-- C10: when the unmap fails, `ReleaseViewPtr` returns false with the
live-view counter untouched; only after a successful unmap is the counter
decremented, and the fetched previous value is asserted (fatally) to be
positive, so in every execution that returns, the counter moves from a
positive value to exactly one less and never goes below zero. -/
theorem releaseViewPtr_counter_safety (arena : MemoryArena) (os : OS) (address : Addr)
    (size : Nat) (munmapOk : Bool) :
    (munmapOk = false →
      arena.ReleaseViewPtr os address size munmapOk = RVP.ret false arena os) ∧
    (munmapOk = true → arena.m_num_views = 0 →
      arena.ReleaseViewPtr os address size munmapOk = RVP.assertFailed) ∧
    (munmapOk = true → 0 < arena.m_num_views → arena.m_num_views < PTRSPACE →
      arena.ReleaseViewPtr os address size munmapOk =
        RVP.ret true { arena with m_num_views := arena.m_num_views - 1 }
          (munmapState os address size)) := by
  refine ⟨?_, ?_, ?_⟩
  · intro h
    subst h
    simp [MemoryArena.ReleaseViewPtr]
  · intro h h0
    subst h
    simp [MemoryArena.ReleaseViewPtr, h0]
  · intro h hpos hlt
    subst h
    have hne : ¬ arena.m_num_views = 0 := by omega
    simp [MemoryArena.ReleaseViewPtr, hne, counter_decrement arena.m_num_views hpos hlt]

/-- C10, witness: a failed unmap returns false and changes nothing. -/
theorem releaseViewPtr_counter_safety_witness :
    arena3one.ReleaseViewPtr osArenaOnly 1048576 4096 false
      = RVP.ret false arena3one osArenaOnly :=
  (releaseViewPtr_counter_safety arena3one osArenaOnly 1048576 4096 false).1 rfl

/-- C6: starting from an arena with no live views, after any sequence of
view events in which N creations and M releases succeed (failed creations
and failed releases change nothing, and any execution that would drive the
counter below zero aborts on the assertion instead of completing), the
live-view counter equals exactly N − M, and M ≤ N. -/
theorem live_view_accounting (a0 : MemoryArena) (os : OS) (ops : List ArenaOp) (t : SimState)
    (h0 : a0.m_num_views = 0) (hlen : ops.length < PTRSPACE)
    (hrun : runOps { arena := a0, os := os, created := 0, released := 0 } ops = some t) :
    t.arena.m_num_views = t.created - t.released ∧ t.released ≤ t.created := by
  have h := runOps_invariant ops { arena := a0, os := os, created := 0, released := 0 } t hrun
    (by simpa using h0) (by simpa using hlen)
  obtain ⟨h1, _⟩ := h
  exact ⟨by omega, by omega⟩

/-- C6, witness: one successful creation followed by one successful release
brings the counter back to 1 − 1 = 0. -/
theorem live_view_accounting_witness :
    arena3.m_num_views = 0 ∧ opsW.length < PTRSPACE ∧
    runOps { arena := arena3, os := osArenaOnly, created := 0, released := 0 } opsW
      = some simW ∧
    (simW.arena.m_num_views = simW.created - simW.released ∧ simW.released ≤ simW.created) :=
  ⟨rfl, by decide, rfl,
    live_view_accounting arena3 osArenaOnly opsW simW rfl (by decide) rfl⟩

/-- C7, amended: on the POSIX implementation the backing shared-memory
object is created under the `common_memory_arena_<size>_<pid>` name and
that name is unlinked before `Create` returns, so a successful `Create`
leaves the shm namespace exactly as it found it, with the name unlinked;
on the Windows implementation, by contrast, the named section object stays
registered under its name until the handle is closed (nothing survives
process exit on either platform). -/
theorem create_unlinks_name_linux (arena : MemoryArena) (os : OS) (pid size : Nat)
    (w e : Bool) (oracle : CreateOracle)
    (hsucc : (arena.Create os pid size w e oracle).1 = true) :
    (arena.Create os pid size w e oracle).2.2.names = os.names ∧
    os.names.contains (mappingName size pid) = false := by
  obtain ⟨fdc, ftok⟩ := oracle
  rcases shmOpen_cases os (mappingName size pid) fdc with ⟨hneg, hos⟩ |
    ⟨fd, hfdc, hfd0, hret, hunused, hname, hos⟩
  · exfalso
    unfold MemoryArena.Create at hsucc
    dsimp only at hsucc
    rw [if_pos hneg] at hsucc
    exact Bool.false_ne_true hsucc
  · subst hfdc
    rw [create_granted arena os pid size w e fd ftok hret hos hfd0 hunused]
    exact ⟨rfl, hname⟩

/-- C7, amended, witness: a concrete successful creation leaves the shm
namespace empty again. -/
theorem create_unlinks_name_linux_witness :
    (MemoryArena.Create MemoryArena.init emptyOS 1 4096 true false
        { fdChoice := some 3, ftruncateOk := true }).1 = true ∧
    (MemoryArena.Create MemoryArena.init emptyOS 1 4096 true false
        { fdChoice := some 3, ftruncateOk := true }).2.2.names = emptyOS.names :=
  ⟨rfl, (create_unlinks_name_linux MemoryArena.init emptyOS 1 4096 true false
      { fdChoice := some 3, ftruncateOk := true } rfl).1⟩

/-- C8: `Create` surfaces every OS refusal as an explicit false return and
never raises: it returns false when the derived name is already linked
(`shm_open(O_EXCL)` collision — the code performs no retry, so one
collision already fails the call), when the kernel refuses a descriptor
(resource exhaustion), and when `ftruncate64` rejects the requested size. -/
theorem create_fails_on_os_refusal (arena : MemoryArena) (os : OS) (pid size : Nat)
    (w e : Bool) (oracle : CreateOracle) :
    (os.names.contains (mappingName size pid) = true →
      (arena.Create os pid size w e oracle).1 = false) ∧
    (oracle.fdChoice = none → (arena.Create os pid size w e oracle).1 = false) ∧
    (oracle.ftruncateOk = false → (arena.Create os pid size w e oracle).1 = false) := by
  refine ⟨?_, ?_, ?_⟩
  · intro h
    unfold MemoryArena.Create shmOpen
    dsimp only
    rw [h]
    simp
  · intro h
    unfold MemoryArena.Create shmOpen
    dsimp only
    rw [h]
    split <;> simp
  · intro h
    rcases shmOpen_cases os (mappingName size pid) oracle.fdChoice with ⟨hneg, _⟩ |
      ⟨fd, hfdc, hfd0, hret, hunused, hname, hos⟩
    · unfold MemoryArena.Create
      dsimp only
      rw [if_pos hneg]
    · have hnneg : ¬ (shmOpen os (mappingName size pid) oracle.fdChoice).1 < 0 := by omega
      unfold MemoryArena.Create
      dsimp only
      rw [if_neg hnneg]
      simp [ftruncate64, h]

/-- C8, witness: a kernel that refuses the descriptor makes `Create` return
false. -/
theorem create_fails_on_os_refusal_witness :
    (MemoryArena.Create MemoryArena.init emptyOS 1 4096 true false
        { fdChoice := none, ftruncateOk := true }).1 = false :=
  (create_fails_on_os_refusal MemoryArena.init emptyOS 1 4096 true false
      { fdChoice := none, ftruncateOk := true }).2.1 rfl

/-- C9, amended: creating an arena (from a default-constructed one) and
then destroying it restores the OS state exactly — the descriptor is
closed, the name is unlinked and the address space untouched — whether the
creation succeeded or failed at the `ftruncate` step, provided the
descriptor `shm_open` hands out is positive; the destructor's
`if (m_shmem_fd > 0)` guard skips the close for descriptor 0. -/
theorem create_destroy_no_leak (os : OS) (pid size : Nat) (w e : Bool) (fd : Int) (ftok : Bool)
    (hfd : 0 < fd) :
    MemoryArena.destructor
        (MemoryArena.Create MemoryArena.init os pid size w e
          { fdChoice := some fd, ftruncateOk := ftok }).2.1
        (MemoryArena.Create MemoryArena.init os pid size w e
          { fdChoice := some fd, ftruncateOk := ftok }).2.2
      = os := by
  rcases shmOpen_cases os (mappingName size pid) (some fd) with ⟨hneg, hos⟩ |
    ⟨fd2, hfdc, hfd0, hret, hunused, hname, hos⟩
  · -- shm_open refused: the stored descriptor is negative, the destructor
    -- skips the close, and the state was never changed
    unfold MemoryArena.Create
    dsimp only
    rw [if_pos hneg, hos]
    unfold MemoryArena.destructor
    dsimp only
    rw [if_neg (by omega)]
  · obtain rfl : fd = fd2 := Option.some.inj hfdc
    rw [create_granted MemoryArena.init os pid size w e fd ftok hret hos hfd0 hunused]
    unfold MemoryArena.destructor
    dsimp only
    rw [if_pos hfd]
    simp [closeFd, List.filter_cons, filter_skips fd os.fds hunused]

/-- C9, amended, witness: a concrete create-then-destroy over descriptor 3
restores the empty OS state. -/
theorem create_destroy_no_leak_witness :
    MemoryArena.destructor
        (MemoryArena.Create MemoryArena.init emptyOS 1 4096 true false
          { fdChoice := some 3, ftruncateOk := true }).2.1
        (MemoryArena.Create MemoryArena.init emptyOS 1 4096 true false
          { fdChoice := some 3, ftruncateOk := true }).2.2
      = emptyOS :=
  create_destroy_no_leak emptyOS 1 4096 true false 3 true (by norm_num)

end Common
